import Mathlib

/-!
Verification of the OBD-II reader (obd_reader.py) against its
natural-language specification.

The program is a single Python script with two front-ends:
`terminal_mode` (a synchronous polling loop printing a text report) and
`OBDReaderGUI` (a tkinter dashboard with a background polling thread).
We embed the parts the claims are about: the fixed parameter lists, the
pure per-parameter formatters, the terminal loop as an event trace, the
dashboard polling cycle as a state transformer with a query log, the
dashboard teardown paths as action sequences, and the mode selector.

Numeric magnitudes are modelled as exact rationals; the Python code
formats IEEE doubles with `:.0f` / `:.1f`, which agrees with decimal
rounding (ties to even) at every value the claims mention.
-/

namespace OBDReader

/-- The eight diagnostic parameters handled by the program
(`create_data_displays` / `read_data_loop` in obd_reader.py). -/
inductive Param where
  | rpm
  | speed
  | coolant_temp
  | throttle_pos
  | engine_load
  | intake_temp
  | fuel_level
  | fuel_pressure
deriving DecidableEq, Repr

/-- The order in which `read_data_loop` queries the parameters:
the insertion order of its `commands` dict (obd_reader.py lines 317-326). -/
def guiParams : List Param :=
  [Param.rpm, Param.speed, Param.coolant_temp, Param.throttle_pos,
   Param.engine_load, Param.intake_temp, Param.fuel_level, Param.fuel_pressure]

/-- The order in which `terminal_mode` reads parameters in one cycle
(obd_reader.py lines 61-117).  Fuel pressure has no read block there. -/
def terminalParams : List Param :=
  [Param.rpm, Param.speed, Param.coolant_temp, Param.throttle_pos,
   Param.engine_load, Param.intake_temp, Param.fuel_level]

/-- Round `n / d` (with `d > 0`) to the nearest integer, ties to even —
the rounding Python `format` applies to the magnitudes.  Working on
numerator and denominator keeps the definition kernel-computable. -/
def roundNumDen (n : ℤ) (d : ℕ) : ℤ :=
  let f := n.fdiv d
  let r := n - f * d
  if 2 * r < (d : ℤ) then f
  else if (d : ℤ) < 2 * r then f + 1
  else if f % 2 = 0 then f else f + 1

/-- Python `f"{q:.0f}"`: round to an integer and print it. -/
def formatFixed0 (q : ℚ) : String :=
  toString (roundNumDen q.num q.den)

/-- Python `f"{q:.1f}"`: one decimal digit. -/
def formatFixed1 (q : ℚ) : String :=
  let n := roundNumDen (10 * q.num) q.den
  let sign := if n < 0 then "-" else ""
  sign ++ toString (n.natAbs / 10) ++ "." ++ toString (n.natAbs % 10)

/-- The value string published by `read_data_loop` for one parameter
(obd_reader.py lines 336-350): integer-rounded for RPM and speed,
dual-unit one-decimal for the two temperatures, one decimal otherwise;
a missing reading becomes `"N/A"`. -/
def guiFormat (p : Param) (v : Option ℚ) : String :=
  match v with
  | none => "N/A"
  | some m =>
    match p with
    | Param.rpm => formatFixed0 m
    | Param.speed => formatFixed0 m
    | Param.coolant_temp => formatFixed1 m ++ "°C\n(" ++ formatFixed1 (m * 9 / 5 + 32) ++ "°F)"
    | Param.intake_temp => formatFixed1 m ++ "°C\n(" ++ formatFixed1 (m * 9 / 5 + 32) ++ "°F)"
    | Param.throttle_pos => formatFixed1 m
    | Param.engine_load => formatFixed1 m
    | Param.fuel_level => formatFixed1 m
    | Param.fuel_pressure => formatFixed1 m

/-- The report line `terminal_mode` prints for one parameter
(obd_reader.py lines 61-117), spacing as in the source.  Fuel pressure
has no read block in `terminal_mode`; that branch is unreachable from
`terminalParams`. -/
def terminalLine (p : Param) (v : Option ℚ) : String :=
  match p, v with
  | Param.rpm, some m => "Engine RPM:      " ++ formatFixed0 m ++ " rpm"
  | Param.rpm, none => "Engine RPM:      No data"
  | Param.speed, some m => "Vehicle Speed:   " ++ formatFixed0 m ++ " mph"
  | Param.speed, none => "Vehicle Speed:   No data"
  | Param.coolant_temp, some m =>
      "Coolant Temp:    " ++ formatFixed1 m ++ "°C (" ++ formatFixed1 (m * 9 / 5 + 32) ++ "°F)"
  | Param.coolant_temp, none => "Coolant Temp:    No data"
  | Param.throttle_pos, some m => "Throttle Pos:    " ++ formatFixed1 m ++ "%"
  | Param.throttle_pos, none => "Throttle Pos:    No data"
  | Param.engine_load, some m => "Engine Load:     " ++ formatFixed1 m ++ "%"
  | Param.engine_load, none => "Engine Load:     No data"
  | Param.intake_temp, some m =>
      "Intake Air Temp: " ++ formatFixed1 m ++ "°C (" ++ formatFixed1 (m * 9 / 5 + 32) ++ "°F)"
  | Param.intake_temp, none => "Intake Air Temp: No data"
  | Param.fuel_level, some m => "Fuel Level:      " ++ formatFixed1 m ++ "%"
  | Param.fuel_level, none => "Fuel Level:      No data"
  | Param.fuel_pressure, _ => ""

/-! Terminal mode as an event trace -/

/-- Observable actions of `terminal_mode`; `sleep` durations are in
milliseconds, `mkSession` marks a call to the library constructor
`obd.OBD(...)`, `close` a call to `connection.close()`. -/
inductive Event where
  | clear
  | print (s : String)
  | query (p : Param)
  | sleep (ms : Nat)
  | mkSession
  | close
deriving DecidableEq, Repr

/-- Outcome of one `connection.query(cmd)` call: a decoded optional
magnitude, a raised exception, or a keyboard interrupt. -/
inductive QRes where
  | ok (v : Option ℚ)
  | exn (e : String)
  | intr
deriving DecidableEq

/-- How the terminal polling loop ends: `except Exception` or
`except KeyboardInterrupt` (obd_reader.py lines 125-128). -/
inductive TermExit where
  | exn (e : String)
  | intr
deriving DecidableEq

/-- The seven query-and-print blocks of one terminal cycle, processed in
order; an exception or interrupt abandons the rest of the cycle because
the `try` in `terminal_mode` wraps the whole loop. -/
def terminalCycleGo (q : Param → QRes) : List Param → List Event × Option TermExit
  | [] => ([], none)
  | p :: ps =>
    match q p with
    | QRes.ok v =>
        let r := terminalCycleGo q ps
        (Event.query p :: Event.print (terminalLine p v) :: r.1, r.2)
    | QRes.exn e => ([Event.query p], some (TermExit.exn e))
    | QRes.intr => ([Event.query p], some TermExit.intr)

/-- One pass over the seven terminal parameters. -/
def terminalCycleE (q : Param → QRes) : List Event × Option TermExit :=
  terminalCycleGo q terminalParams

/-- The banner printed at the top of each cycle. -/
def dashes : String := "-------------------------"

/-- Events the `except`/`finally` clauses of `terminal_mode` emit
(obd_reader.py lines 125-131): the status line, `connection.close()`,
and the closing message. -/
def exitEvents : TermExit → List Event
  | TermExit.intr => [Event.print "\n\nExiting...", Event.close, Event.print "Connection closed."]
  | TermExit.exn e =>
      [Event.print ("\nError: " ++ e), Event.close, Event.print "Connection closed."]

/-- The `while True` loop of `terminal_mode` (obd_reader.py lines 56-123),
run for `fuel` cycles starting at cycle index `i`; `q n` gives cycle `n`'s
query outcomes.  Returns the emitted events and whether the function
returned (`true`) or is still looping after `fuel` cycles (`false`). -/
def terminalLoop (q : Nat → Param → QRes) (i : Nat) : Nat → List Event × Bool
  | 0 => ([], false)
  | fuel + 1 =>
    let head := [Event.clear, Event.print "=== OBD-II LIVE DATA ===", Event.print dashes]
    match terminalCycleE (q i) with
    | (evs, none) =>
        let tail := [Event.print dashes, Event.print "Press Ctrl+C to exit", Event.sleep 1000]
        let r := terminalLoop q (i + 1) fuel
        (head ++ evs ++ tail ++ r.1, r.2)
    | (evs, some ex) => (head ++ evs ++ exitEvents ex, true)

/-- The connection phase of `terminal_mode` (obd_reader.py lines 23-40).
`acm = none` means `obd.OBD('/dev/ttyACM0')` raised (the bare `except`
swallows it and no session object exists); `acm = some b` means it
returned a session with `is_connected() = b`.  `auto` is the
`is_connected()` state of the auto-detect session.  Returns the events
and whether the final session is connected. -/
def terminalConnectEvents (acm : Option Bool) (auto : Bool) : List Event × Bool :=
  let base := [Event.print "Connecting to OBD-II port...", Event.print "Trying /dev/ttyACM0..."]
  match acm with
  | none => (base ++ [Event.print "Trying auto-detection...", Event.mkSession], auto)
  | some true => (base ++ [Event.mkSession, Event.print "Connected via /dev/ttyACM0!"], true)
  | some false =>
      (base ++ [Event.mkSession, Event.print "Trying auto-detection...", Event.mkSession], auto)

/-- All of `terminal_mode` (obd_reader.py lines 21-131): the connection
phase, then either the failure report and an immediate `return` (lines
42-48 — note: no `close`), or the startup banner and the polling loop. -/
def terminalMode (acm : Option Bool) (auto : Bool) (q : Nat → Param → QRes)
    (port proto : String) (fuel : Nat) : List Event × Bool :=
  let c := terminalConnectEvents acm auto
  if c.2 = false then
    (c.1 ++ [Event.print "Failed to connect to vehicle!", Event.print "Check:",
             Event.print "- OBD-II adapter is plugged in",
             Event.print "- Vehicle ignition is ON",
             Event.print "- Adapter drivers are installed"], true)
  else
    let intro := [Event.print ("Connected to: " ++ port),
                  Event.print ("Protocol: " ++ proto),
                  Event.print "\nStarting data read... (Press Ctrl+C to exit)",
                  Event.sleep 2000]
    let r := terminalLoop q 0 fuel
    (c.1 ++ intro ++ r.1, r.2)

/-- The query/print events of one exception-free terminal cycle with
readings `r`. -/
def cycleOkEvents (r : Param → Option ℚ) : List Event :=
  terminalParams.flatMap fun p => [Event.query p, Event.print (terminalLine p (r p))]

/-- One full exception-free cycle block: clear, banner, the seven
readings, the footer, and the one-second sleep. -/
def terminalCycleBlock (r : Param → Option ℚ) : List Event :=
  [Event.clear, Event.print "=== OBD-II LIVE DATA ===", Event.print dashes]
  ++ cycleOkEvents r
  ++ [Event.print dashes, Event.print "Press Ctrl+C to exit", Event.sleep 1000]

/-! Dashboard polling cycle -/

/-- The `for param, command in commands.items()` body of `read_data_loop`
(obd_reader.py lines 330-354), over the remaining parameter list.
`running` is the `is_running` flag checked before each query; `q p` is
`connection.query(command)`, either a decoded optional magnitude or a
raised exception.  Returns the display state (each published value is
`guiFormat` of the reading), the list of parameters actually queried, and
the exception that ended the cycle, if any — the `try` wraps the whole
`for`, so an exception abandons the rest of the cycle. -/
def cycleStep (running : Bool) (q : Param → Except String (Option ℚ))
    (s : Param → String) : List Param → (Param → String) × List Param × Option String
  | [] => (s, [], none)
  | p :: ps =>
    if running then
      match q p with
      | Except.error e => (s, [p], some e)
      | Except.ok v =>
          let r := cycleStep running q (Function.update s p (guiFormat p v)) ps
          (r.1, p :: r.2.1, r.2.2)
    else (s, [], none)

/-! Dashboard connection state and teardown -/

/-- A live connection as the dashboard sees it (spec §3): the library
object is opaque; we keep the observable attributes. -/
structure Session where
  connected : Bool
  protocolName : String
deriving DecidableEq

/-- Closing a held session succeeds; calling close on a null session
would raise — the guards in the source prevent the latter. -/
def closeSession : Option Session → Except String Unit
  | some _ => Except.ok ()
  | none => Except.error "AttributeError: NoneType object has no attribute close"

/-- The dashboard's mutable fields (`OBDReaderGUI.__init__`,
obd_reader.py lines 142-147): the held session, the run flag, whether a
polling thread object exists, and the displayed strings. -/
structure GuiState where
  connection : Option Session
  is_running : Bool
  data_thread : Bool
  data_vars : Param → String

/-- `OBDReaderGUI.disconnect` (obd_reader.py lines 299-313): clear the
run flag, join the thread if one exists (no state effect), close and null
the session if one is held, and reset every displayed value to `"--"`. -/
def disconnect (g : GuiState) : Except String GuiState := do
  let g1 : GuiState := { g with is_running := false }
  let g2 ← match g1.connection with
    | some _ => do
        let _ ← closeSession g1.connection
        pure { g1 with connection := none }
    | none => pure g1
  pure { g2 with data_vars := fun _ => "--" }

/-- Teardown steps as an action sequence, for ordering claims. -/
inductive GAction where
  | setRunning (b : Bool)
  | joinThread (timeoutSec : Nat)
  | closeConn
  | setConnNone
  | setStatus (s : String)
  | setButton (s : String)
  | resetVars
  | destroyWindow
deriving DecidableEq, Repr

/-- Whether an action is a thread join. -/
def GAction.isJoin : GAction → Bool
  | GAction.joinThread _ => true
  | _ => false

/-- The action sequence of `OBDReaderGUI.disconnect` (obd_reader.py lines
299-313), given whether a thread object and a session are held. -/
def disconnectActions (hasThread hasConn : Bool) : List GAction :=
  [GAction.setRunning false]
  ++ (if hasThread then [GAction.joinThread 2] else [])
  ++ (if hasConn then [GAction.closeConn, GAction.setConnNone] else [])
  ++ [GAction.setStatus "Status: Disconnected", GAction.setButton "Connect", GAction.resetVars]

/-- The action sequence of `OBDReaderGUI.on_closing` (obd_reader.py lines
362-366): clear the flag, close the session if held, destroy the window —
there is no join. -/
def onClosingActions (hasConn : Bool) : List GAction :=
  [GAction.setRunning false]
  ++ (if hasConn then [GAction.closeConn] else [])
  ++ [GAction.destroyWindow]

/-! Reachable display states -/

/-- Display states the dashboard can be in: all cells start as `"--"`
(`create_data_displays`, line 228), each polling cycle publishes
`guiFormat` strings (`read_data_loop`), and `disconnect` resets every
cell to `"--"`. -/
inductive ReachableDisplay : (Param → String) → Prop where
  | init : ReachableDisplay fun _ => "--"
  | cycle (running : Bool) (q : Param → Except String (Option ℚ)) (s : Param → String) :
      ReachableDisplay s → ReachableDisplay (cycleStep running q s guiParams).1
  | reset (s : Param → String) :
      ReachableDisplay s → ReachableDisplay fun _ => "--"

/-- The invariant of spec §3: a displayed string is the sentinel, the
absence marker, or a formatted numeric string for its parameter. -/
def validValue (p : Param) (s : String) : Prop :=
  s = "--" ∨ s = "N/A" ∨ ∃ c : ℚ, s = guiFormat p (some c)

/-! Mode selection -/

/-- Inputs of the mode decision in `main` (obd_reader.py lines 389-403). -/
structure ModeEnv where
  terminalFlag : Bool
  guiFlag : Bool
  displayEnv : Bool
  guiAvailable : Bool

/-- The selected behaviour: `guiUnavailable` is `gui_mode` printing
"Error: GUI libraries not available." and returning (lines 370-373). -/
inductive Mode where
  | terminal
  | dashboard
  | guiUnavailable
deriving DecidableEq, Repr

/-- The mode decision of `main` (obd_reader.py lines 389-403): `--terminal`
wins, then `--gui` (which errors inside `gui_mode` when tkinter is
unavailable), then auto-detection on `GUI_AVAILABLE and os.environ.get('DISPLAY')`. -/
def selectMode (e : ModeEnv) : Mode :=
  if e.terminalFlag then Mode.terminal
  else if e.guiFlag then
    (if e.guiAvailable then Mode.dashboard else Mode.guiUnavailable)
  else if e.guiAvailable && e.displayEnv then Mode.dashboard
  else Mode.terminal

/-- The decision table of spec §4.6, transcribed row by row; `none` for
input combinations the table does not list. -/
def specModeTable (e : ModeEnv) : Option Mode :=
  if e.terminalFlag then some Mode.terminal
  else if e.guiFlag then
    some (if e.guiAvailable then Mode.dashboard else Mode.guiUnavailable)
  else if e.displayEnv && e.guiAvailable then some Mode.dashboard
  else if !e.displayEnv && !e.guiAvailable then some Mode.terminal
  else none

/-! Lemmas about the dashboard cycle -/

/-- A parameter not in the remaining list keeps its displayed value. -/
theorem cycleStep_not_mem (q : Param → Except String (Option ℚ)) (l : List Param) :
    ∀ (s : Param → String) (p : Param), p ∉ l → (cycleStep true q s l).1 p = s p := by
  induction l with
  | nil => intro s p _; rfl
  | cons a as ih =>
    intro s p hp
    simp only [List.mem_cons, not_or] at hp
    obtain ⟨hpa, hpas⟩ := hp
    cases hqa : q a with
    | error e => simp [cycleStep, hqa]
    | ok v =>
      simp only [cycleStep, hqa, if_true]
      rw [ih _ p hpas, Function.update_noteq hpa]

/-- An exception-free pass queries every parameter of the list. -/
theorem cycleStep_all_ok (q : Param → Except String (Option ℚ)) (l : List Param) :
    ∀ (s : Param → String), (∀ p ∈ l, ∃ v, q p = Except.ok v) →
      (cycleStep true q s l).2.1 = l ∧ (cycleStep true q s l).2.2 = none := by
  induction l with
  | nil => intro s _; exact ⟨rfl, rfl⟩
  | cons a as ih =>
    intro s hok
    obtain ⟨v, hv⟩ := hok a (List.mem_cons_self a as)
    have hrest := ih (Function.update s a (guiFormat a v))
      (fun p hp => hok p (List.mem_cons_of_mem a hp))
    simp [cycleStep, hv, hrest.1, hrest.2]

/-- A query exception after an exception-free front of the list stops the
cycle there: the state reflects only the front, only the front and the
failing parameter were queried, and the exception is reported. -/
theorem cycleStep_fail_after (q : Param → Except String (Option ℚ)) (l₁ : List Param) :
    ∀ (l₂ : List Param) (k : Param) (e : String) (s : Param → String),
      (∀ p ∈ l₁, ∃ v, q p = Except.ok v) → q k = Except.error e →
      (cycleStep true q s (l₁ ++ k :: l₂)).1 = (cycleStep true q s l₁).1 ∧
      (cycleStep true q s (l₁ ++ k :: l₂)).2.1 = l₁ ++ [k] ∧
      (cycleStep true q s (l₁ ++ k :: l₂)).2.2 = some e := by
  induction l₁ with
  | nil =>
    intro l₂ k e s _ hfail
    simp [cycleStep, hfail]
  | cons a as ih =>
    intro l₂ k e s hok hfail
    obtain ⟨v, hv⟩ := hok a (List.mem_cons_self a as)
    have hrest := ih l₂ k e (Function.update s a (guiFormat a v))
      (fun p hp => hok p (List.mem_cons_of_mem a hp)) hfail
    simp [cycleStep, hv, hrest.1, hrest.2.1, hrest.2.2]

/-- In an exception-free pass over distinct parameters, each parameter's
cell ends up holding exactly `guiFormat` of its reading. -/
theorem cycleStep_published (q : Param → Except String (Option ℚ)) (l : List Param) :
    ∀ (s : Param → String), l.Nodup →
      ∀ p v, p ∈ l → q p = Except.ok v →
      (∀ p' ∈ l, ∃ v', q p' = Except.ok v') →
      (cycleStep true q s l).1 p = guiFormat p v := by
  induction l with
  | nil => intro s _ p v hp _ _; exact absurd hp (List.not_mem_nil p)
  | cons a as ih =>
    intro s hnd p v hp hv hok
    obtain ⟨va, hva⟩ := hok a (List.mem_cons_self a as)
    rw [List.nodup_cons] at hnd
    simp only [cycleStep, hva, if_true]
    rcases List.mem_cons.mp hp with hpa | hpas
    · subst hpa
      rw [cycleStep_not_mem q as _ p hnd.1, Function.update_same]
      rw [hva] at hv
      exact congrArg (guiFormat p) (Except.ok.inj hv)
    · exact ih _ hnd.2 p v hpas hv (fun p' hp' => hok p' (List.mem_cons_of_mem a hp'))

/-- Each displayed value a cycle writes is a `guiFormat` string, so the
display invariant is preserved. -/
theorem cycleStep_valid (running : Bool) (q : Param → Except String (Option ℚ))
    (l : List Param) :
    ∀ (s : Param → String), (∀ p, validValue p (s p)) →
      ∀ p, validValue p ((cycleStep running q s l).1 p) := by
  induction l with
  | nil => intro s hs p; exact hs p
  | cons a as ih =>
    intro s hs p
    cases running with
    | false => exact hs p
    | true =>
      cases hqa : q a with
      | error e => simpa [cycleStep, hqa] using hs p
      | ok v =>
        simp only [cycleStep, hqa, if_true]
        refine ih _ (fun p' => ?_) p
        by_cases hp' : p' = a
        · subst hp'
          rw [Function.update_same]
          cases v with
          | none => exact Or.inr (Or.inl rfl)
          | some c => exact Or.inr (Or.inr ⟨c, rfl⟩)
        · rw [Function.update_noteq hp']
          exact hs p'

/-! Lemmas about the terminal loop -/

/-- The `finally` clause always closes the connection on both exit paths. -/
theorem exitEvents_close (ex : TermExit) : Event.close ∈ exitEvents ex := by
  cases ex <;> simp [exitEvents]

/-- An exception-free cycle emits exactly the seven query/print pairs. -/
theorem terminalCycleGo_all_ok (r : Param → Option ℚ) (l : List Param) :
    terminalCycleGo (fun p => QRes.ok (r p)) l
      = (l.flatMap fun p => [Event.query p, Event.print (terminalLine p (r p))], none) := by
  induction l with
  | nil => rfl
  | cons a as ih => simp [terminalCycleGo, ih]

/-- If the terminal loop returned, its trace contains the `close` of the
`finally` block. -/
theorem terminalLoop_returns_close (q : Nat → Param → QRes) :
    ∀ (fuel i : Nat), (terminalLoop q i fuel).2 = true →
      Event.close ∈ (terminalLoop q i fuel).1 := by
  intro fuel
  induction fuel with
  | zero => intro i h; simp [terminalLoop] at h
  | succ f ih =>
    intro i h
    rw [terminalLoop] at h ⊢
    cases hce : terminalCycleE (q i) with
    | mk evs ex =>
      cases ex with
      | none =>
        simp only [hce] at h ⊢
        have := ih (i + 1) h
        simp [this]
      | some e =>
        simp only [hce] at h ⊢
        simp [exitEvents_close e]

/-! Concrete inputs used by counterexamples and witnesses -/

/-- Queries that always return "no data" without raising. -/
def qNone : Nat → Param → QRes := fun _ _ => QRes.ok none

/-- Dashboard queries where the speed query raises and the rest decode 0. -/
def qBoom : Param → Except String (Option ℚ) :=
  fun p => if p = Param.speed then Except.error "boom" else Except.ok (some 0)

/-- Terminal queries hit by a keyboard interrupt at the first parameter. -/
def qIntr : Nat → Param → QRes :=
  fun _ p => if p = Param.rpm then QRes.intr else QRes.ok none

/-- The display state right after `create_data_displays`. -/
def dashInit : Param → String := fun _ => "--"

/-- A dashboard state holding a live session and stale display values. -/
def exGui : GuiState :=
  { connection := some { connected := true, protocolName := "ISO 15765-4" }
  , is_running := true
  , data_thread := true
  , data_vars := fun _ => "5" }

/-- The state `disconnect` produces from `exGui`. -/
def exGui' : GuiState :=
  { connection := none
  , is_running := false
  , data_thread := true
  , data_vars := fun _ => "--" }

/-! Claims -/

/-- C5: for every temperature parameter (coolant and intake air) with
present magnitude `c`, both front-ends show `c` to one decimal in Celsius
and `c*9/5+32` to one decimal in Fahrenheit; in particular `c = 20.0`
renders Celsius "20.0°C" and Fahrenheit "68.0°F". -/
theorem temperature_format_dual_unit :
    (∀ c : ℚ, guiFormat Param.coolant_temp (some c)
        = formatFixed1 c ++ "°C\n(" ++ formatFixed1 (c * 9 / 5 + 32) ++ "°F)") ∧
    (∀ c : ℚ, guiFormat Param.intake_temp (some c)
        = formatFixed1 c ++ "°C\n(" ++ formatFixed1 (c * 9 / 5 + 32) ++ "°F)") ∧
    (∀ c : ℚ, terminalLine Param.coolant_temp (some c)
        = "Coolant Temp:    " ++ formatFixed1 c ++ "°C ("
          ++ formatFixed1 (c * 9 / 5 + 32) ++ "°F)") ∧
    (∀ c : ℚ, terminalLine Param.intake_temp (some c)
        = "Intake Air Temp: " ++ formatFixed1 c ++ "°C ("
          ++ formatFixed1 (c * 9 / 5 + 32) ++ "°F)") ∧
    formatFixed1 20 = "20.0" ∧ formatFixed1 (20 * 9 / 5 + 32 : ℚ) = "68.0" ∧
    guiFormat Param.coolant_temp (some 20) = "20.0°C\n(68.0°F)" ∧
    terminalLine Param.coolant_temp (some 20) = "Coolant Temp:    20.0°C (68.0°F)" := by
  have h68 : (20 * 9 / 5 + 32 : ℚ) = 68 := by norm_num
  have hf20 : formatFixed1 20 = "20.0" := by decide
  have hf68 : formatFixed1 (20 * 9 / 5 + 32 : ℚ) = "68.0" := by rw [h68]; decide
  refine ⟨fun c => rfl, fun c => rfl, fun c => rfl, fun c => rfl, hf20, hf68, ?_, ?_⟩
  · have hg : guiFormat Param.coolant_temp (some 20)
        = formatFixed1 20 ++ "°C\n(" ++ formatFixed1 (20 * 9 / 5 + 32 : ℚ) ++ "°F)" := rfl
    rw [hg, hf20, hf68]; rfl
  · have ht : terminalLine Param.coolant_temp (some 20)
        = "Coolant Temp:    " ++ formatFixed1 20 ++ "°C ("
          ++ formatFixed1 (20 * 9 / 5 + 32 : ℚ) ++ "°F)" := rfl
    rw [ht, hf20, hf68]; rfl

/-- C6: after the dashboard `disconnect()` operation completes, every
display cell equals the placeholder "--". -/
theorem disconnect_resets_display (g g' : GuiState) (h : disconnect g = Except.ok g')
    (p : Param) : g'.data_vars p = "--" := by
  obtain ⟨c, ir, dt, dv⟩ := g
  cases c with
  | none =>
    injection h with h
    rw [← h]
  | some s =>
    injection h with h
    rw [← h]

/-- Witness for C6 at a concrete connected state. -/
theorem disconnect_resets_display_witness :
    disconnect exGui = Except.ok exGui' ∧ exGui'.data_vars Param.rpm = "--" :=
  ⟨rfl, disconnect_resets_display exGui exGui' rfl Param.rpm⟩

/-- C7: `disconnect` is idempotent — a second call raises no error, and
the session reference is null after both the first and the second call. -/
theorem disconnect_idempotent (g : GuiState) :
    ∃ g1 g2 : GuiState, disconnect g = Except.ok g1 ∧ g1.connection = none ∧
      disconnect g1 = Except.ok g2 ∧ g2.connection = none := by
  obtain ⟨c, ir, dt, dv⟩ := g
  cases c with
  | none => exact ⟨_, _, rfl, rfl, rfl, rfl⟩
  | some s => exact ⟨_, _, rfl, rfl, rfl, rfl⟩

/-- C9: `--terminal` always selects terminal mode; otherwise `--gui`
selects the dashboard (an error is reported when tkinter is unavailable);
with neither flag the dashboard is selected exactly when the display
environment variable is present and tkinter is available — in particular
no flags, no display, toolkit available selects terminal mode. -/
theorem mode_selection_table :
    (∀ (e : ModeEnv) (m : Mode), specModeTable e = some m → selectMode e = m) ∧
    (∀ e : ModeEnv, e.terminalFlag = false → e.guiFlag = false →
        (selectMode e = Mode.dashboard ↔ (e.displayEnv = true ∧ e.guiAvailable = true))) ∧
    selectMode ⟨false, false, false, true⟩ = Mode.terminal := by
  refine ⟨?_, ?_, rfl⟩
  · rintro ⟨t, gf, d, a⟩ m h
    cases t <;> cases gf <;> cases d <;> cases a <;>
      simp_all [specModeTable, selectMode]
  · rintro ⟨t, gf, d, a⟩ h1 h2
    cases t <;> cases gf <;> cases d <;> cases a <;> simp_all [selectMode]

/-- Witness for C9: the `--gui`-with-toolkit row and the
no-flags-display-present row of the table. -/
theorem mode_selection_table_witness :
    selectMode ⟨false, false, true, true⟩ = Mode.dashboard ∧
    selectMode ⟨false, true, false, false⟩ = Mode.guiUnavailable := by
  have h := mode_selection_table
  exact ⟨h.1 ⟨false, false, true, true⟩ Mode.dashboard rfl,
         h.1 ⟨false, true, false, false⟩ Mode.guiUnavailable rfl⟩

/-- C8: every display value the dashboard can ever hold is the sentinel
"--", the absence marker "N/A", or a formatted numeric string produced by
the per-parameter formatter. -/
theorem display_values_invariant (s : Param → String) (h : ReachableDisplay s) :
    ∀ p, validValue p (s p) := by
  induction h with
  | init => intro p; exact Or.inl rfl
  | cycle running q s' hs ih => exact cycleStep_valid running q guiParams s' ih
  | reset s' hs ih => intro p; exact Or.inl rfl

/-- Witness for C8 at the initial display state. -/
theorem display_values_invariant_witness :
    ReachableDisplay dashInit ∧ validValue Param.rpm (dashInit Param.rpm) :=
  ⟨ReachableDisplay.init, display_values_invariant dashInit ReachableDisplay.init Param.rpm⟩

/-- C10: the dashboard publishes one parameter at a time: if the query of
parameter `k` raises, the parameters queried before `k` hold that cycle's
newly published values, while `k` and all later parameters keep their
previous values; the exception is reported at cycle level and nothing is
rolled back. -/
theorem gui_partial_update_on_failure
    (q : Param → Except String (Option ℚ)) (s : Param → String)
    (l₁ l₂ : List Param) (k : Param) (e : String)
    (hsplit : guiParams = l₁ ++ k :: l₂)
    (hok : ∀ p ∈ l₁, ∃ v, q p = Except.ok v)
    (hfail : q k = Except.error e) :
    (∀ p v, p ∈ l₁ → q p = Except.ok v →
        (cycleStep true q s guiParams).1 p = guiFormat p v) ∧
    (∀ p, p ∈ k :: l₂ → (cycleStep true q s guiParams).1 p = s p) ∧
    (cycleStep true q s guiParams).2.2 = some e := by
  have hnd : (l₁ ++ k :: l₂).Nodup := by rw [← hsplit]; decide
  have hsp := cycleStep_fail_after q l₁ l₂ k e s hok hfail
  rw [hsplit]
  refine ⟨?_, ?_, hsp.2.2⟩
  · intro p v hp hv
    rw [hsp.1]
    exact cycleStep_published q l₁ s (List.Nodup.of_append_left hnd) p v hp hv hok
  · intro p hp
    rw [hsp.1]
    have hdisj := List.disjoint_of_nodup_append hnd
    exact cycleStep_not_mem q l₁ s p fun hmem => hdisj hmem hp

/-- Witness for C10: speed fails, so RPM (queried first) shows the new
reading while coolant temperature keeps its previous value. -/
theorem gui_partial_update_witness :
    (cycleStep true qBoom dashInit guiParams).1 Param.rpm = guiFormat Param.rpm (some 0) ∧
    (cycleStep true qBoom dashInit guiParams).1 Param.coolant_temp = "--" := by
  have h := gui_partial_update_on_failure qBoom dashInit [Param.rpm]
    [Param.coolant_temp, Param.throttle_pos, Param.engine_load, Param.intake_temp,
     Param.fuel_level, Param.fuel_pressure] Param.speed "boom" rfl
    (by intro p hp; rw [List.mem_singleton] at hp; subst hp; exact ⟨some 0, rfl⟩) rfl
  exact ⟨h.1 Param.rpm (some 0) (List.mem_singleton.mpr rfl) rfl,
         h.2.1 Param.coolant_temp (by decide)⟩

/-- C1 counterexample: the running terminal loop queries RPM every cycle
and never returns, but a fuel-pressure query never appears in its trace —
the terminal report covers seven parameters, not eight. -/
theorem terminal_report_omits_fuel_pressure :
    Event.query Param.fuel_pressure ∉ (terminalMode (some true) true qNone "p" "x" 2).1 ∧
    Event.query Param.rpm ∈ (terminalMode (some true) true qNone "p" "x" 2).1 ∧
    (terminalMode (some true) true qNone "p" "x" 2).2 = false := by decide

/-- C1 (amended): once connected, every terminal display cycle clears the
screen and prints the fixed-order report of the seven parameters read in
terminal mode — fuel pressure has no read block there — then sleeps one
second, and exception-free cycles repeat with the loop never returning. -/
theorem terminal_loop_fixed_report (r : Nat → Param → Option ℚ) :
    ∀ (fuel i : Nat), terminalLoop (fun n p => QRes.ok (r n p)) i fuel
      = ((List.range' i fuel).flatMap fun j => terminalCycleBlock (r j), false) := by
  intro fuel
  induction fuel with
  | zero => intro i; rfl
  | succ f ih =>
    intro i
    have hce : terminalCycleE (fun p => QRes.ok (r i p)) = (cycleOkEvents (r i), none) :=
      terminalCycleGo_all_ok (r i) terminalParams
    have hr : List.range' i (f + 1) = i :: List.range' (i + 1) f := rfl
    simp [terminalLoop, hce, ih, hr, terminalCycleBlock]

/-- C2 counterexample: with the speed query raising, coolant temperature
(and every later parameter) is not queried in that cycle, and the speed
cell keeps "--" rather than being reported absent as "N/A". -/
theorem gui_cycle_abort_counterexample :
    (cycleStep true qBoom dashInit guiParams).2.1 = [Param.rpm, Param.speed] ∧
    Param.coolant_temp ∉ (cycleStep true qBoom dashInit guiParams).2.1 ∧
    (cycleStep true qBoom dashInit guiParams).1 Param.speed = "--" ∧
    (cycleStep true qBoom dashInit guiParams).1 Param.speed ≠ "N/A" := by decide

/-- C2 (amended): an exception while querying one parameter aborts the
remaining queries of that cycle. In dashboard mode the exception is
caught at cycle level: only the parameters before the failing one were
queried, the failing and later parameters keep their previous displayed
values, the loop then runs the next cycle (an exception-free cycle again
queries the full list), and only a query returning no data without
raising renders the absence marker "N/A". In terminal mode a query
exception (or interrupt) makes the loop return. -/
theorem query_exception_aborts_cycle
    (q : Param → Except String (Option ℚ)) (s : Param → String)
    (l₁ l₂ : List Param) (k : Param) (e : String)
    (hsplit : guiParams = l₁ ++ k :: l₂)
    (hok : ∀ p ∈ l₁, ∃ v, q p = Except.ok v)
    (hfail : q k = Except.error e)
    (qf : Nat → Param → QRes) (fuel : Nat) (ex : TermExit)
    (hterm : (terminalCycleE (qf 0)).2 = some ex) :
    (cycleStep true q s guiParams).2.1 = l₁ ++ [k] ∧
    (cycleStep true q s guiParams).2.2 = some e ∧
    (∀ p, p ∈ k :: l₂ → (cycleStep true q s guiParams).1 p = s p) ∧
    (∀ (q' : Param → Except String (Option ℚ)) (s' : Param → String),
        (∀ p ∈ guiParams, ∃ v, q' p = Except.ok v) →
        (cycleStep true q' s' guiParams).2.1 = guiParams) ∧
    (∀ p, guiFormat p none = "N/A") ∧
    (terminalLoop qf 0 (fuel + 1)).2 = true ∧
    Event.close ∈ (terminalLoop qf 0 (fuel + 1)).1 := by
  have hnd : (l₁ ++ k :: l₂).Nodup := by rw [← hsplit]; decide
  have hsp := cycleStep_fail_after q l₁ l₂ k e s hok hfail
  have hterm2 : (terminalLoop qf 0 (fuel + 1)).2 = true := by
    rw [terminalLoop]
    rcases hce : terminalCycleE (qf 0) with ⟨evs, ex'⟩
    rw [hce] at hterm
    cases ex' with
    | none => simp at hterm
    | some e' => simp
  refine ⟨?_, ?_, ?_, ?_, fun p => rfl, hterm2,
    terminalLoop_returns_close qf (fuel + 1) 0 hterm2⟩
  · rw [hsplit]; exact hsp.2.1
  · rw [hsplit]; exact hsp.2.2
  · intro p hp
    rw [hsplit, hsp.1]
    have hdisj := List.disjoint_of_nodup_append hnd
    exact cycleStep_not_mem q l₁ s p fun hmem => hdisj hmem hp
  · intro q' s' hok'
    exact (cycleStep_all_ok q' guiParams s' hok').1

/-- Terminal queries whose first query raises an exception. -/
def qfBoom : Nat → Param → QRes :=
  fun _ p => if p = Param.rpm then QRes.exn "boom" else QRes.ok none

/-- Witness for C2 at concrete failing queries in both modes. -/
theorem query_exception_aborts_cycle_witness :
    (cycleStep true qBoom dashInit guiParams).2.1 = [Param.rpm, Param.speed] ∧
    (cycleStep true qBoom dashInit guiParams).1 Param.fuel_level = "--" ∧
    (terminalLoop qfBoom 0 1).2 = true := by
  have h := query_exception_aborts_cycle qBoom dashInit [Param.rpm]
    [Param.coolant_temp, Param.throttle_pos, Param.engine_load, Param.intake_temp,
     Param.fuel_level, Param.fuel_pressure] Param.speed "boom" rfl
    (by intro p hp; rw [List.mem_singleton] at hp; subst hp; exact ⟨some 0, rfl⟩) rfl
    qfBoom 0 (TermExit.exn "boom") rfl
  exact ⟨h.1, h.2.2.1 Param.fuel_level (by decide), h.2.2.2.2.2.1⟩

/-- C3 counterexample: the window-close path clears the run flag and then
closes the session, but its action sequence contains no join at all — the
polling task has not been waited for when the session is closed. -/
theorem on_closing_closes_without_join :
    GAction.closeConn ∈ onClosingActions true ∧
    (onClosingActions true).all (fun a => !a.isJoin) = true ∧
    (onClosingActions true).head? = some (GAction.setRunning false) := by decide

/-- C3 (amended): on the user-initiated disconnect path the polling task
is signalled to stop and joined (2-second bound) before the session is
closed; on the window-close path the task is signalled before the close,
but the session is closed without any join. -/
theorem teardown_join_ordering :
    (∃ i j k : Nat, i < j ∧ j < k ∧
      (disconnectActions true true)[i]? = some (GAction.setRunning false) ∧
      (disconnectActions true true)[j]? = some (GAction.joinThread 2) ∧
      (disconnectActions true true)[k]? = some GAction.closeConn) ∧
    (∃ i k : Nat, i < k ∧
      (onClosingActions true)[i]? = some (GAction.setRunning false) ∧
      (onClosingActions true)[k]? = some GAction.closeConn) ∧
    (onClosingActions true).all (fun a => !a.isJoin) = true :=
  ⟨⟨0, 1, 2, by decide, by decide, rfl, rfl, rfl⟩,
   ⟨0, 1, by decide, rfl, rfl⟩, by decide⟩

/-- C4 counterexample: when both connection attempts yield no connected
session, `terminal_mode` prints the failure report and returns — a
session object was created by auto-detection (`mkSession` is in the
trace) yet no `close` ever appears. -/
theorem terminal_connect_failure_no_close :
    Event.mkSession ∈ (terminalMode (some false) false qNone "p" "x" 5).1 ∧
    Event.close ∉ (terminalMode (some false) false qNone "p" "x" 5).1 ∧
    (terminalMode (some false) false qNone "p" "x" 5).2 = true := by decide

/-- C4 (amended): in terminal mode the interrupt, query-error and fatal
loop-error paths all close the session via the `finally` block before the
function returns, and both dashboard teardown paths close a held session;
the terminal connection-attempt-failure path, however, returns without
closing the session it created (see the counterexample). -/
theorem terminal_error_paths_close
    (acm : Option Bool) (auto : Bool) (q : Nat → Param → QRes)
    (port proto : String) (fuel : Nat)
    (hconn : (terminalConnectEvents acm auto).2 = true)
    (hret : (terminalLoop q 0 fuel).2 = true) :
    Event.close ∈ (terminalMode acm auto q port proto fuel).1 ∧
    (terminalMode acm auto q port proto fuel).2 = true ∧
    GAction.closeConn ∈ disconnectActions true true ∧
    GAction.closeConn ∈ onClosingActions true := by
  have hcl := terminalLoop_returns_close q fuel 0 hret
  refine ⟨?_, ?_, by decide, by decide⟩
  · simp only [terminalMode, hconn]
    simp [hcl]
  · simp only [terminalMode, hconn]
    simp [hret]

/-- Witness for C4: a connected session whose first cycle is interrupted. -/
theorem terminal_error_paths_close_witness :
    Event.close ∈ (terminalMode (some true) true qIntr "p" "x" 1).1 :=
  (terminal_error_paths_close (some true) true qIntr "p" "x" 1 rfl (by decide)).1

end OBDReader
